import Mathlib

/-!
Verification of the orchestration logic of the kno2gether-webrtc-agent
repository (a voice-driven dental help-desk bot).  The Python sources are
shallowly embedded: strings are modelled as `List Char`, an HTTP call is
modelled by an explicit outcome parameter (`HttpOutcome`), JSON response
bodies by the inductive `Json`, and Python exceptions that escape a
function by `Except PyErr`.  Event handlers of the two main variants
(`AIAssistedCustomerHelpDesk.py`, here suffixed `_hd`, and
`AIAssistedCustomerHelpDeskMultiFunction.py`, suffixed `_mf`) are embedded
as pure state-transition functions on the session flag
`human_agent_present`, emitting a list of observable actions (`Act`).
-/

/-- Parsed JSON values, as returned by `response.json()` in the source. -/
inductive Json where
  | null
  | bool (b : Bool)
  | num (n : Int)
  | str (s : List Char)
  | arr (items : List Json)
  | obj (fields : List (List Char × Json))

/-- Python exceptions that are NOT `requests.RequestException` and hence
escape the `try NN except requests.RequestException` blocks in the source. -/
inductive PyErr where
  | keyError (k : List Char)
  | typeError
  | indexError
  | attributeError
  | nameError (n : List Char)
deriving DecidableEq

/-- Outcome of one synchronous `requests` call in the source.
`ok body` is a 2xx response with a parsed JSON body; `netErr` is any
`requests.RequestException`: connection failure, a non-2xx status raised
by `raise_for_status()`, or an unparseable body (`requests` raises its
`JSONDecodeError`, a `RequestException` subclass, from `response.json()`). -/
inductive HttpOutcome where
  | ok (body : Json)
  | netErr

/-- Specialisation of `Except.isOk` for this development. -/
def isOkResult {α : Type} : Except PyErr α → Bool
  | .ok _ => true
  | .error _ => false

/-- Python `str.lower()`; the keyword and phrase constants in the source are
ASCII, for which `Char.toLower` agrees with Python. -/
def pyLower (s : List Char) : List Char := s.map Char.toLower

/-- Head-match test `startsWith pat s`: `pat` occurs at the head of `s`. -/
def startsWith : List Char → List Char → Bool
  | [], _ => true
  | _ :: _, [] => false
  | a :: as, b :: bs => a = b && startsWith as bs

/-- Substring test `containsSub pat s`: Python `pat in s`. -/
def containsSub (pat : List Char) : List Char → Bool
  | [] => startsWith pat []
  | c :: rest => startsWith pat (c :: rest) || containsSub pat rest

/-- Python truthiness of a parsed JSON value (`if slots:` in the source). -/
def pyTruthy : Json → Bool
  | .null => false
  | .bool b => b
  | .num n => decide (n ≠ 0)
  | .str s => decide (s ≠ [])
  | .arr xs => !xs.isEmpty
  | .obj fs => !fs.isEmpty

/-- Field lookup in a JSON object literal. -/
def lookupField : List (List Char × Json) → List Char → Option Json
  | [], _ => none
  | (k, v) :: rest, key => if k = key then some v else lookupField rest key

/-- Python subscript `j[k]` with a string key: a dict yields the value or
raises `KeyError`; any non-dict raises `TypeError`. -/
def pySubscript (j : Json) (k : List Char) : Except PyErr Json :=
  match j with
  | .obj fs =>
    match lookupField fs k with
    | some v => .ok v
    | none => .error (.keyError k)
  | _ => .error .typeError

/-- Python subscript `j[0]`: first element of a list (or `IndexError` when
empty), first character of a string, `KeyError` on a dict, `TypeError`
otherwise. -/
def pyIndex0 : Json → Except PyErr Json
  | .arr (x :: _) => .ok x
  | .arr [] => .error .indexError
  | .str (c :: _) => .ok (.str [c])
  | .str [] => .error .indexError
  | .obj _ => .error (.keyError ['0'])
  | _ => .error .typeError

/-- Python `str()` of a JSON value as used inside the f-string of
`find_appointment_slots`; the rendering of compound values is abstracted
(claims only exercise atomic slot labels). -/
def pyStr : Json → List Char
  | .str s => s
  | .num n => (toString n).toList
  | .bool true => "True".toList
  | .bool false => "False".toList
  | .null => "None".toList
  | .arr _ => "<list>".toList
  | .obj _ => "<dict>".toList

/-- Scanner for the domain part of the UNANCHORED pattern
`[^@]+@[^@]+\.[^@]+` as evaluated by Python `re.match` (truthiness of a
match at the start of the string).  Called on the characters after the
first `@`; `seen` records whether at least one non-`@` character has been
consumed.  Succeeds at the first `.` that has one or more non-`@`
characters before it (since the first `@`) and at least one non-`@`
character directly after it; everything beyond may be arbitrary, because
`re.match` does not anchor the end. -/
def domainScan : List Char → Bool → Bool
  | [], _ => false
  | c :: rest, seen =>
    if c = '@' then false
    else if seen && c = '.' && (match rest with | d :: _ => d ≠ '@' | [] => false) then true
    else domainScan rest true

/-- Scanner for the local part of `[^@]+@NN`: walks to the first `@`,
requiring at least one preceding character (all of which are non-`@` by
construction). -/
def localScan : List Char → Bool → Bool
  | [], _ => false
  | c :: rest, seen =>
    if c = '@' then seen && domainScan rest false
    else localScan rest true

/-- Truthiness of `re.match(r"[^@]+@[^@]+\.[^@]+", email)` in
`book_appointment`: the pattern only needs to match an initial segment of the
input, because `re.match` anchors at the start but not at the end. -/
def reMatchEmail (email : List Char) : Bool := localScan email false

/-- Modelled from the spec: the ANCHORED pattern `^[^@]+@[^@]+\.[^@]+$`
named by the claim — domain scanner.  A `.` split succeeds only when the
whole remainder after it is nonempty and free of `@`. -/
def anchoredDomainScan : List Char → Bool → Bool
  | [], _ => false
  | c :: rest, seen =>
    if c = '@' then false
    else if seen && c = '.' && rest ≠ [] && rest.all (fun d => d ≠ '@') then true
    else anchoredDomainScan rest true

/-- Modelled from the spec: local-part scanner for the anchored pattern. -/
def anchoredLocalScan : List Char → Bool → Bool
  | [], _ => false
  | c :: rest, seen =>
    if c = '@' then seen && anchoredDomainScan rest false
    else anchoredLocalScan rest true

/-- Modelled from the spec: full-string match of `^[^@]+@[^@]+\.[^@]+$`,
the anchored pattern the claim attributes to `book_appointment`. -/
def anchoredEmailMatch (email : List Char) : Bool := anchoredLocalScan email false

/-- The fixed urgent-keyword set of `assess_dental_urgency`. -/
def urgent_keywords : List (List Char) :=
  ["severe pain".toList, "swelling".toList, "bleeding".toList,
   "trauma".toList, "knocked out".toList, "broken".toList]

/-- Embedding of `any(keyword in symptoms.lower() for keyword in urgent_keywords)`. -/
def hasUrgentKeyword (symptoms : List Char) : Bool :=
  urgent_keywords.any fun k => containsSub k (pyLower symptoms)

/-- Reassurance text returned by both variants on a non-urgent input. -/
def reassuranceText : List Char :=
  "Your dental issue doesn\x27t appear to be immediately urgent, but it\x27s still important to schedule an appointment soon for a proper evaluation.".toList

/-- Function `assess_dental_urgency` of `AIAssistedCustomerHelpDesk.py`: urgent
symptoms yield the sentinel `call_human_agent`. -/
def assess_dental_urgency_hd (symptoms : List Char) : List Char :=
  if hasUrgentKeyword symptoms then ("call_human_agent".toList) else reassuranceText

/-- Function `assess_dental_urgency` of `AIAssistedCustomerHelpDeskMultiFunction.py`:
urgent symptoms yield a plain text, not the sentinel. -/
def assess_dental_urgency_mf (symptoms : List Char) : List Char :=
  if hasUrgentKeyword symptoms then ("The issue needs urgent attention !!".toList) else reassuranceText

/-- Function `book_appointment(email, name)` (identical in both variants): returns
the user-facing text and the list of webhook POSTs issued (payload
`{email, name}`).  The POST is attempted whenever the unanchored
`re.match` succeeds, even when it later fails. -/
def book_appointment (email name : List Char) (o : HttpOutcome) :
    List Char × List (List Char × List Char) :=
  if reMatchEmail email then
    match o with
    | .ok _body =>
      ("Dental appointment booking link sent to ".toList ++ email
        ++ ". Please check your email.".toList, [(email, name)])
    | .netErr =>
      ("There was an error booking your dental appointment. Please try again later.".toList,
        [(email, name)])
  else
    ("The email address seems incorrect. Please provide a valid one.".toList, [])

/-- Function `create_contact_in_crm(email, name)` of the multi-function variant.
Only `requests.RequestException` is caught; on a 2xx response the source
evaluates `response.json()[\x27contact\x27][\x27id\x27]`, so an unexpected body
shape raises an uncaught `KeyError`/`TypeError` past the boundary. -/
def create_contact_in_crm (email name : List Char) (o : HttpOutcome) :
    Except PyErr (List Char) :=
  match o with
  | .netErr =>
    .ok ("There was an error creating your contact in our system. Please try again later.".toList)
  | .ok body =>
    match pySubscript body ("contact".toList) with
    | .error e => .error e
    | .ok contact =>
      match pySubscript contact ("id".toList) with
      | .error e => .error e
      | .ok contact_id =>
        .ok ("Customer data is saved with Customer Reference ID: ".toList ++ pyStr contact_id
          ++ ". Please save this reference for later.".toList)

/-- The query window of `find_appointment_slots`, in epoch milliseconds as
the source computes (`int(ts * 1000)`; `timedelta` arithmetic is exact). -/
structure SlotsWindow where
  startDate : Nat
  endDate : Nat
deriving DecidableEq

/-- Function `find_appointment_slots(urgency)` of the multi-function variant,
parameterised by the current time in epoch ms.  Returns the queried
window together with the result: `Except` models exceptions that escape
(only `RequestException` is caught), `Option` models the Python `None`
returned on a network error — distinct from the `No Slot Found` text.
On a truthy body the source evaluates
`slots[list(slots.keys())[0]][\x27slots\x27][0]`, so a truthy non-dict body
raises `AttributeError` at `slots.keys()` and a dict with an
unexpectedly shaped first value raises past the boundary. -/
def find_appointment_slots (urgency : List Char) (nowMs : Nat) (o : HttpOutcome) :
    SlotsWindow × Except PyErr (Option (List Char)) :=
  let window : SlotsWindow :=
    if urgency = "emergency".toList then
      ⟨nowMs, nowMs + 24 * 3600 * 1000⟩
    else
      ⟨nowMs + 3 * 86400 * 1000, nowMs + 3 * 86400 * 1000 + 7 * 86400 * 1000⟩
  let result : Except PyErr (Option (List Char)) :=
    match o with
    | .netErr => .ok none
    | .ok slots =>
      if pyTruthy slots then
        match slots with
        | .obj ((_first_date, first_val) :: _) =>
          (match pySubscript first_val ("slots".toList) with
           | .error e => .error e
           | .ok sv =>
             match pyIndex0 sv with
             | .error e => .error e
             | .ok first_slot =>
               .ok (some ("The first available slot is ".toList ++ pyStr first_slot)))
        | _ => .error .attributeError
      else .ok (some ("No Slot Found".toList))
  (window, result)

/-- Function `book_emergency_appointment(slot, email)` of the multi-function
variant: the POST carries the slot unvalidated; any 2xx JSON response
yields the escalation sentinel unconditionally, any request failure the
generic error text. -/
def book_emergency_appointment (slot email : List Char) (o : HttpOutcome) : List Char :=
  match slot, email, o with
  | _, _, .ok _appointment => "call_human_agent".toList
  | _, _, .netErr =>
    "There was an error booking your emergency appointment. Please try again later.".toList

/-- A finished LLM function call as seen by the `function_calls_finished`
handlers: the function name, its returned text (`call_info` result), and
the argument mapping the model supplied. -/
structure CalledFunction where
  name : List Char
  result : List Char
  args : List (List Char × List Char)

/-- Embedding of `arguments.get(key)` on the call arguments: `none` models Python
`None` for an absent key. -/
def argsGet : List (List Char × List Char) → List Char → Option (List Char)
  | [], _ => none
  | (k, v) :: rest, key => if k = key then some v else argsGet rest key

/-- Observable side effects of the orchestration handlers:
`model t` — `_answer` reached the model (one model invocation / spoken
reply seeded with text `t`); `sip p` — a `create_sip_participant` task
was launched to phone `p` (the outbound human call leg);
`followUpScheduled e` — a delayed `follow_up_appointment(e)` task was
launched. -/
inductive Act where
  | model (text : List Char)
  | sip (phone : List Char)
  | followUpScheduled (email : List Char)
deriving DecidableEq

/-- The explicit help-request phrase checked by the handlers. -/
def helpPhrase : List Char := "help me".toList

/-- Python `"help me" in text.lower()`. -/
def helpRequested (text : List Char) : Bool := containsSub helpPhrase (pyLower text)

/-- Function `_answer` of `AIAssistedCustomerHelpDesk.py`.  Suppression is decided
by the PARAMETERS `human_agent_present` / `ai_assistance_required` of the
call (both default to false at most call sites); the session flag of the
same name is shadowed and not read.  Returns the model invocations made
(one, or none when suppressed). -/
def answer_hd (text : List Char) (human_agent_present ai_assistance_required : Bool) :
    List (List Char) :=
  if human_agent_present && !ai_assistance_required then [] else [text]

/-- Function `_answer` of `AIAssistedCustomerHelpDeskMultiFunction.py`: suppression
additionally requires the text itself to contain the help phrase. -/
def answer_mf (text : List Char) (human_agent_present ai_assistance_required : Bool) :
    List (List Char) :=
  if human_agent_present && helpRequested text && !ai_assistance_required then [] else [text]

/-- Handler `on_message_received` of `AIAssistedCustomerHelpDesk.py`: returns the
texts submitted to the model for one inbound chat message, given the
session flag.  The final `else` only prints — the message is dropped, not
queued. -/
def on_message_received_hd (human_agent_present : Bool) (message : List Char) :
    List (List Char) :=
  if message ≠ [] ∧ human_agent_present = false then
    answer_hd message false false
  else if message ≠ [] ∧ human_agent_present = true ∧ helpRequested message = true then
    answer_hd message true true
  else []

/-- Handler `on_message_received` of the multi-function variant (same structure,
but delegating to its own `_answer`). -/
def on_message_received_mf (human_agent_present : Bool) (message : List Char) :
    List (List Char) :=
  if message ≠ [] ∧ human_agent_present = false then
    answer_mf message false false
  else if message ≠ [] ∧ human_agent_present = true ∧ helpRequested message = true then
    answer_mf message true true
  else []

/-- Handler `on_function_calls_finished` of `AIAssistedCustomerHelpDesk.py`:
consumes only the FIRST finished call.  The `assess_dental_urgency`
branch with the sentinel result sets `human_agent_present := true` at
dispatch time — before any outcome of the launched SIP task is known —
and its `_answer("Human assistance is coming ...")` line is commented
out in this variant, so the only action is the SIP task.  Returns the
new flag and the actions launched. -/
def on_function_calls_finished_hd (phone : List Char) (human_agent_present : Bool)
    (called_functions : List CalledFunction) : Bool × List Act :=
  match called_functions with
  | [] => (human_agent_present, [])
  | function :: _ =>
    if function.name = "assess_dental_urgency".toList then
      if function.result = "call_human_agent".toList then
        (true, [Act.sip phone])
      else
        (human_agent_present, (answer_hd function.result false false).map Act.model)
    else if function.name = "book_appointment".toList then
      match argsGet function.args ("email".toList) with
      | some email =>
        if email ≠ [] then (human_agent_present, [Act.followUpScheduled email])
        else (human_agent_present, [])
      | none => (human_agent_present, [])
    else if function.name = "analyze_dental_image".toList then
      (human_agent_present,
        (answer_hd ((argsGet function.args ("user_msg".toList)).getD ("None".toList))
          false false).map Act.model)
    else (human_agent_present, [])

/-- Handler `on_function_calls_finished` of the multi-function variant: here the
escalation branch is keyed on `book_emergency_appointment` (not on
`assess_dental_urgency`, which matches NO branch), announces the handoff
via `_answer(..., human_agent_present=True, ai_assistance_required=True)`
and then launches the SIP task and sets the flag. -/
def on_function_calls_finished_mf (phone : List Char) (human_agent_present : Bool)
    (called_functions : List CalledFunction) : Bool × List Act :=
  match called_functions with
  | [] => (human_agent_present, [])
  | function :: _ =>
    if function.name = "book_emergency_appointment".toList then
      if function.result = "call_human_agent".toList then
        (true,
          (answer_mf ("Human assistance is coming. Please wait while I\x27m trying to connect you. I\x27ll be here if you need me, just say my name.".toList)
            true true).map Act.model ++ [Act.sip phone])
      else
        (human_agent_present, (answer_mf function.result false false).map Act.model)
    else if function.name = "book_appointment".toList then
      match argsGet function.args ("email".toList) with
      | some email =>
        if email ≠ [] then (human_agent_present, [Act.followUpScheduled email])
        else (human_agent_present, [])
      | none => (human_agent_present, [])
    else if function.name = "analyze_dental_image".toList then
      (human_agent_present,
        (answer_mf ((argsGet function.args ("user_msg".toList)).getD ("None".toList))
          false false).map Act.model)
    else (human_agent_present, [])

/-- The re-engagement prompt the disconnect handler feeds to `_answer`. -/
def reengagePrompt : List Char :=
  "Human Agent interaction completed. Politely ask if it was helpful and if user is happy to proceed with the in-person appointment.".toList

/-- Session events of `AIAssistedCustomerHelpDesk.py`.
`followUpFires status` is the delayed `follow_up_appointment` task
resuming after its 20 s sleep with `status` the text returned by
`check_appointment_status`; `sipTaskDone ok` is the completion (success
or failure) of a launched `create_sip_participant` task — NO handler in
the source observes it, which the step function renders as a no-op. -/
inductive Event where
  | message (text : List Char)
  | disconnect
  | fnFinished (fns : List CalledFunction)
  | followUpFires (status : List Char)
  | sipTaskDone (ok : Bool)

/-- One orchestration step of `AIAssistedCustomerHelpDesk.py`: the
session flag before the event maps to the flag after it plus the actions
launched.  The `participant_disconnected` handler only prints and calls
`_answer(reengagePrompt)` with default parameters — it never assigns
`human_agent_present`. -/
def stepHD (phone : List Char) (human_agent_present : Bool) : Event → Bool × List Act
  | .message t =>
    (human_agent_present, (on_message_received_hd human_agent_present t).map Act.model)
  | .disconnect =>
    (human_agent_present, (answer_hd reengagePrompt false false).map Act.model)
  | .fnFinished fns => on_function_calls_finished_hd phone human_agent_present fns
  | .followUpFires status =>
    (human_agent_present, (answer_hd status false false).map Act.model)
  | .sipTaskDone _ => (human_agent_present, [])

/-- Folding `stepHD` over an event trace, collecting all actions. -/
def runHD (phone : List Char) : Bool → List Event → Bool × List Act
  | b, [] => (b, [])
  | b, e :: es =>
    let first := stepHD phone b e
    let rest := runHD phone first.1 es
    (rest.1, first.2 ++ rest.2)

/-- Number of delayed follow-up tasks launched in an action list. -/
def countFollowUps (acts : List Act) : Nat :=
  (acts.filter fun a => match a with | .followUpScheduled _ => true | _ => false).length

/-- Handler `on_function_calls_finished` of `KnolabsDentalAssistant.py`.  Its
`assess_dental_urgency` branch evaluates `function.result`, but this
variant binds only `function_name` — the name `function` is unbound, so
Python raises `NameError` there and no action is launched; the other
branches do not touch the unbound name. -/
def knolabs_on_function_calls_finished (called_functions : List CalledFunction) :
    Except PyErr (List Act) :=
  match called_functions with
  | [] => .ok []
  | f :: _ =>
    if f.name = "assess_dental_urgency".toList then
      .error (.nameError ("function".toList))
    else if f.name = "book_appointment".toList then
      match argsGet f.args ("email".toList) with
      | some email => if email ≠ [] then .ok [Act.followUpScheduled email] else .ok []
      | none => .ok []
    else if f.name = "analyze_dental_image".toList then
      .ok [Act.model ((argsGet f.args ("user_msg".toList)).getD ("None".toList))]
    else .ok []

/-- A string accepted by the unanchored pattern is nonempty. -/
theorem reMatchEmail_ne_nil (email : List Char) (h : reMatchEmail email = true) :
    email ≠ [] := by
  intro he
  subst he
  simp [reMatchEmail, localScan] at h

/-- C7: for every slot and email, a 2xx JSON response to the emergency
booking POST makes `book_emergency_appointment` return the escalation
sentinel `call_human_agent` unconditionally — the slot timing is never
inspected — and any request failure returns the generic error text. -/
theorem book_emergency_appointment_always_escalates (slot email : List Char) (body : Json) :
    book_emergency_appointment slot email (HttpOutcome.ok body) = "call_human_agent".toList ∧
    book_emergency_appointment slot email HttpOutcome.netErr
      = "There was an error booking your emergency appointment. Please try again later.".toList :=
  ⟨rfl, rfl⟩

/-- C10: in `KnolabsDentalAssistant.py`, every finished
`assess_dental_urgency` call makes `on_function_calls_finished` evaluate
the unbound name `function`, so the handler raises `NameError` and
launches no action — in particular the urgency result is never spoken
through this dispatch path, whatever the result and arguments were. -/
theorem knolabs_assess_dispatch_name_error (result : List Char)
    (args : List (List Char × List Char)) (rest : List CalledFunction) :
    knolabs_on_function_calls_finished
        (CalledFunction.mk ("assess_dental_urgency".toList) result args :: rest)
      = Except.error (PyErr.nameError ("function".toList)) := rfl

/-- C4 (code evaluated at the failing input): a participant-disconnect
event while `human_agent_present = true` produces exactly one
re-engagement model invocation, but leaves the flag `true` — the handler
never assigns `human_agent_present = False`, although its own log line
says the AI agent is taking over. -/
theorem disconnect_reengagement_keeps_flag :
    stepHD ("+15550100".toList) true Event.disconnect
      = (true, [Act.model reengagePrompt]) := rfl

/-- C5 (code evaluated at the failing input): the escalation branch sets
`human_agent_present := true` at dispatch time, before any outcome of the
outbound SIP call is known, and the later completion of the SIP task —
successful or failed — is observed by no handler: the failure changes no
state and surfaces no action, leaving the system believing a human is
present. -/
theorem escalation_sets_flag_before_call_outcome :
    stepHD ("+15550100".toList) false
        (Event.fnFinished
          [CalledFunction.mk ("assess_dental_urgency".toList) "call_human_agent".toList []])
      = (true, [Act.sip ("+15550100".toList)]) ∧
    stepHD ("+15550100".toList) true (Event.sipTaskDone false) = (true, []) ∧
    stepHD ("+15550100".toList) true (Event.sipTaskDone true) = (true, []) :=
  ⟨rfl, rfl, rfl⟩

/-- C9 counterexample: while `human_agent_present = true`, the delayed
follow-up status check still produces a model invocation (the assistant
speaks), contradicting the claim that every speaking path is suppressed
while the flag is set. -/
theorem follow_up_while_human_active_counterexample :
    stepHD ("+15550100".toList) true
        (Event.followUpFires ("You have successfully booked a dental appointment.".toList))
      = (true, [Act.model ("You have successfully booked a dental appointment.".toList)]) := rfl

/-- C9 as amended: suppression of `_answer` is decided by the parameters
given at each call site, not by the session flag; `follow_up_appointment`
passes the defaults in both variants, so the delayed follow-up produces
exactly one model invocation regardless of `human_agent_present`. -/
theorem follow_up_speaks_regardless_of_flag (phone : List Char)
    (human_agent_present : Bool) (status : List Char) :
    stepHD phone human_agent_present (Event.followUpFires status)
      = (human_agent_present, [Act.model status]) ∧
    answer_mf status false false = [status] := by
  refine ⟨?_, ?_⟩
  · simp [stepHD, answer_hd]
  · simp [answer_mf]

/-- C6 counterexample: a 2xx response whose JSON body is the empty object
makes `create_contact_in_crm` raise `KeyError` past the function
boundary — the `except requests.RequestException` clause does not catch
it, contradicting the claim that every outcome resolves to text. -/
theorem create_contact_shape_error_counterexample :
    create_contact_in_crm ("jane@example.com".toList) "Jane".toList
        (HttpOutcome.ok (Json.obj []))
      = Except.error (PyErr.keyError ("contact".toList)) := rfl

/-- C2 counterexample: in the multi-function variant an urgent symptom
string does not yield the escalation sentinel, and dispatching the
finished `assess_dental_urgency` call through that variant changes no
state and launches no action — no human handoff begins. -/
theorem assess_dental_urgency_mf_counterexample :
    assess_dental_urgency_mf ("severe pain".toList) ≠ "call_human_agent".toList ∧
    on_function_calls_finished_mf ("+15550100".toList) false
        [CalledFunction.mk ("assess_dental_urgency".toList)
          (assess_dental_urgency_mf ("severe pain".toList)) []]
      = (false, []) := by
  refine ⟨by decide, rfl⟩

/-- C1 counterexample: the input `a@b.c@d` fails the anchored pattern
`^[^@]+@[^@]+\.[^@]+$` of the claim, yet `book_appointment` issues one
webhook POST (the source uses an unanchored `re.match`) and the
function-calls-finished dispatch schedules one delayed follow-up. -/
theorem book_appointment_unanchored_counterexample :
    anchoredEmailMatch ("a@b.c@d".toList) = false ∧
    (book_appointment ("a@b.c@d".toList) "Bob".toList (HttpOutcome.ok Json.null)).2.length = 1 ∧
    countFollowUps
        (on_function_calls_finished_hd ("+15550100".toList) false
          [CalledFunction.mk ("book_appointment".toList)
            (book_appointment ("a@b.c@d".toList) "Bob".toList (HttpOutcome.ok Json.null)).1
            [("email".toList, "a@b.c@d".toList)]]).2 = 1 := by
  refine ⟨rfl, rfl, rfl⟩

/-- C1 as amended: `book_appointment` gates the webhook POST on the
UNANCHORED `re.match` test — an accepted email (which every
full-string match of the anchored pattern also is) yields exactly one
POST and the dispatch schedules exactly one delayed follow-up; a
rejected email yields the correction message and zero POSTs, but the
dispatch still schedules one follow-up for any nonempty email argument. -/
theorem book_appointment_unanchored_match_and_followup (email name : List Char)
    (o : HttpOutcome) (phone : List Char) (human_agent_present : Bool) :
    if reMatchEmail email then
      (book_appointment email name o).2.length = 1 ∧
      countFollowUps
        (on_function_calls_finished_hd phone human_agent_present
          [CalledFunction.mk ("book_appointment".toList) (book_appointment email name o).1
            [("email".toList, email)]]).2 = 1
    else
      (book_appointment email name o).1
        = "The email address seems incorrect. Please provide a valid one.".toList ∧
      (book_appointment email name o).2 = [] ∧
      countFollowUps
        (on_function_calls_finished_hd phone human_agent_present
          [CalledFunction.mk ("book_appointment".toList) (book_appointment email name o).1
            [("email".toList, email)]]).2
        = (if email = [] then 0 else 1) := by
  by_cases hm : reMatchEmail email = true
  · have hne : email ≠ [] := reMatchEmail_ne_nil email hm
    simp only [hm, if_true]
    refine ⟨?_, ?_⟩
    · cases o <;> simp [book_appointment, hm]
    · simp [on_function_calls_finished_hd, argsGet, countFollowUps, hne]
  · simp only [Bool.not_eq_true] at hm
    simp only [hm, Bool.false_eq_true, if_false]
    refine ⟨?_, ?_, ?_⟩
    · simp [book_appointment, hm]
    · simp [book_appointment, hm]
    · by_cases he : email = []
      · simp [on_function_calls_finished_hd, argsGet, countFollowUps, he]
      · simp [on_function_calls_finished_hd, argsGet, countFollowUps, he]

/-- C2 as amended: for every symptoms string, an urgent keyword makes
the single-function variant return the sentinel `call_human_agent`,
which its dispatch consumes to set the flag and place the outbound SIP
call; the multi-function variant instead returns a plain urgency text,
and its dispatch never consumes a finished `assess_dental_urgency` call
(no state change, no action).  Without an urgent keyword both variants
return the reassurance text.  Both are pure: no network call, no
failure. -/
theorem assess_dental_urgency_variants (symptoms phone : List Char)
    (human_agent_present : Bool) (args : List (List Char × List Char)) :
    assess_dental_urgency_hd symptoms
      = (if hasUrgentKeyword symptoms then ("call_human_agent".toList) else reassuranceText) ∧
    assess_dental_urgency_mf symptoms
      = (if hasUrgentKeyword symptoms then ("The issue needs urgent attention !!".toList)
         else reassuranceText) ∧
    on_function_calls_finished_hd phone human_agent_present
        [CalledFunction.mk ("assess_dental_urgency".toList)
          (assess_dental_urgency_hd symptoms) args]
      = (if hasUrgentKeyword symptoms then (true, [Act.sip phone])
         else (human_agent_present, [Act.model reassuranceText])) ∧
    on_function_calls_finished_mf phone human_agent_present
        [CalledFunction.mk ("assess_dental_urgency".toList)
          (assess_dental_urgency_mf symptoms) args]
      = (human_agent_present, []) := by
  refine ⟨rfl, rfl, ?_, rfl⟩
  cases hk : hasUrgentKeyword symptoms <;>
    simp [assess_dental_urgency_hd, hk, on_function_calls_finished_hd, answer_hd,
      reassuranceText]

/-- C3: while `human_agent_present = true`, a trace made only of inbound
chat messages leaves the flag `true` and produces model invocations for
exactly the nonempty messages containing the help phrase — every other
message is dropped with zero invocations and nothing queued; the
multi-function variant handles messages identically in this state. -/
theorem human_active_message_suppression (phone : List Char) (msgs : List (List Char)) :
    runHD phone true (msgs.map Event.message)
      = (true, (msgs.filter fun m => decide (m ≠ []) && helpRequested m).map Act.model) ∧
    ∀ m, on_message_received_mf true m = on_message_received_hd true m := by
  constructor
  · induction msgs with
    | nil => rfl
    | cons m ms ih =>
      by_cases hm : m = []
      · simp [runHD, stepHD, on_message_received_hd, hm, ih, List.filter_cons]
      · cases hr : helpRequested m <;>
          simp [runHD, stepHD, on_message_received_hd, answer_hd, hm, hr, ih,
            List.filter_cons]
  · intro m
    by_cases hm : m = []
    · simp [on_message_received_mf, on_message_received_hd, hm]
    · cases hr : helpRequested m <;>
        simp [on_message_received_mf, on_message_received_hd, answer_hd, answer_mf, hm, hr]

/-- C6 as amended: a request-level failure (`RequestException`:
connection error, non-2xx, unparseable body) is always caught and
converted to a text result in every CRM/webhook function; but on a 2xx
response whose JSON body lacks the expected shape,
`create_contact_in_crm` and `find_appointment_slots` raise an uncaught
exception past the function boundary. -/
theorem crm_error_handling_boundary (email name slot urgency : List Char) (nowMs : Nat) :
    isOkResult (create_contact_in_crm email name HttpOutcome.netErr) = true ∧
    isOkResult (find_appointment_slots urgency nowMs HttpOutcome.netErr).2 = true ∧
    (∀ body : Json, book_emergency_appointment slot email (HttpOutcome.ok body)
        = "call_human_agent".toList) ∧
    book_emergency_appointment slot email HttpOutcome.netErr
      = "There was an error booking your emergency appointment. Please try again later.".toList ∧
    (book_appointment email name HttpOutcome.netErr).1
      = (if reMatchEmail email then
           "There was an error booking your dental appointment. Please try again later.".toList
         else ("The email address seems incorrect. Please provide a valid one.".toList)) ∧
    isOkResult (create_contact_in_crm email name
        (HttpOutcome.ok (Json.obj [("contact".toList,
          Json.obj [("id".toList, Json.str ("abc123".toList))])]))) = true ∧
    isOkResult (create_contact_in_crm email name (HttpOutcome.ok (Json.obj []))) = false ∧
    (find_appointment_slots urgency nowMs (HttpOutcome.ok (Json.num 5))).2
      = Except.error PyErr.attributeError := by
  refine ⟨rfl, rfl, fun body => rfl, rfl, ?_, rfl, rfl, rfl⟩
  cases hm : reMatchEmail email <;> simp [book_appointment, hm]

/-- The queried window of `find_appointment_slots` is computed before the
HTTP call, hence independent of its outcome. -/
theorem find_slots_window_eq (urgency : List Char) (nowMs : Nat) (o : HttpOutcome) :
    (find_appointment_slots urgency nowMs o).1
      = (if urgency = "emergency".toList then
           SlotsWindow.mk nowMs (nowMs + 24 * 3600 * 1000)
         else
           SlotsWindow.mk (nowMs + 3 * 86400 * 1000)
             (nowMs + 3 * 86400 * 1000 + 7 * 86400 * 1000)) := by
  cases o <;> rfl

/-- C8: for every urgency string and instant, the queried window is
now..now+24h exactly when the urgency is `emergency` and
now+3days..now+10days otherwise (in epoch ms), independent of the HTTP
outcome; a 2xx response with an empty body yields the literal
`No Slot Found` message and the dispatch launches no action (in
particular no booking call) for a finished `find_appointment_slots`; a
network failure yields `None`, which differs from the no-slot message. -/
theorem find_appointment_slots_window_and_no_slot (urgency : List Char) (nowMs : Nat)
    (phone : List Char) (human_agent_present : Bool) :
    (∀ o : HttpOutcome, (find_appointment_slots urgency nowMs o).1
        = (if urgency = "emergency".toList then
             SlotsWindow.mk nowMs (nowMs + 24 * 3600 * 1000)
           else
             SlotsWindow.mk (nowMs + 3 * 86400 * 1000)
               (nowMs + 3 * 86400 * 1000 + 7 * 86400 * 1000))) ∧
    (nowMs + 24 * 3600 * 1000 = nowMs + 86400000 ∧
      nowMs + 3 * 86400 * 1000 = nowMs + 3 * 86400000 ∧
      nowMs + 3 * 86400 * 1000 + 7 * 86400 * 1000 = nowMs + 10 * 86400000) ∧
    (find_appointment_slots urgency nowMs (HttpOutcome.ok (Json.obj []))).2
      = Except.ok (some ("No Slot Found".toList)) ∧
    (find_appointment_slots urgency nowMs HttpOutcome.netErr).2 = Except.ok none ∧
    on_function_calls_finished_mf phone human_agent_present
        [CalledFunction.mk ("find_appointment_slots".toList) "No Slot Found".toList []]
      = (human_agent_present, []) ∧
    (Except.ok none : Except PyErr (Option (List Char)))
      ≠ Except.ok (some ("No Slot Found".toList)) := by
  exact ⟨find_slots_window_eq urgency nowMs, by omega, rfl, rfl, rfl, by simp⟩
